import Mathlib

/-!
Verification of the turn-orchestration core of scira-mcp-chat against its
specification. The embedding covers the two source files:
`src/components/chat.tsx` (history query function, custom fetch around
`streamText`, submit handler, loading flag, error toasts) and
`src/app/api/chat/messages/route.ts` (persistence POST handler).
Helper code living outside `src/` (`convertToDBMessages`, `saveMessages`,
`convertToUIMessages`) enters as function parameters, so every theorem
holds for all of its behaviours; the multi-step tool-use loop, implemented
by the `ai` library's `streamText`, is modelled from the spec with the
`maxSteps = 20` ceiling that the source passes to it.
-/

namespace SciraChat

/-- Whitespace characters relevant to JavaScript `String.prototype.trim`
on the inputs considered here (ASCII subset). -/
def isJsWhitespace (c : Char) : Bool :=
  c = ' ' || c = '\t' || c = '\n' || c = '\r'

/-- JavaScript `String.prototype.trim`: drop leading and trailing whitespace. -/
def jsTrim (s : String) : String :=
  ⟨((s.data.dropWhile isJsWhitespace).reverse.dropWhile isJsWhitespace).reverse⟩

/-- JavaScript truthiness of a string: every string except `""` is truthy. -/
def truthy (s : String) : Bool :=
  !(s == "")

/-- JavaScript truthiness of a possibly-undefined string value. -/
def truthyOpt : Option String → Bool
  | none => false
  | some s => truthy s

/-- A persisted message row as delivered by the history endpoint
(`DBMessage` in chat.tsx, from `lib/db/schema`). Fields beyond those the
client inspects are irrelevant to the claims and omitted. -/
structure DBMessage where
  id : String
  role : String
  content : String
deriving DecidableEq

/-- Shape of the chat-history payload (`interface ChatData` in chat.tsx). -/
structure ChatData where
  id : String
  messages : List DBMessage
  createdAt : String
  updatedAt : String
deriving DecidableEq

/-- The slice of a Fetch-API response that the query function inspects:
the HTTP status and the parsed JSON body of a successful response. -/
structure HttpResponse where
  status : Nat
  body : ChatData
deriving DecidableEq

/-- Fetch-API `Response.ok`: true exactly when the status is 200–299. -/
def HttpResponse.ok (r : HttpResponse) : Bool :=
  decide (200 ≤ r.status) && decide (r.status < 300)

/-- Result of the React Query `queryFn` in chat.tsx (lines 66–90): it may
return `null` (missing chatId or userId), resolve with chat data, or throw. -/
inductive QueryResult where
  | nullResult
  | chatData (d : ChatData)
  | thrown (msg : String)
deriving DecidableEq

/-- The `queryFn` of chat.tsx lines 66–90. It first guards on the JavaScript
truthiness of `chatId` and `userId`, returning `null` if either is missing;
it then fetches and inspects the response: a non-ok response with status 404
resolves with a synthetic empty-history payload whose timestamps come from
`new Date().toISOString()` (the `now` argument); any other non-ok response
throws `Error("Failed to load chat")`; an ok response resolves with its body. -/
def queryFn (chatId userId : Option String) (now : String)
    (response : HttpResponse) : QueryResult :=
  if !truthyOpt chatId || !truthyOpt userId then
    .nullResult
  else if !response.ok then
    if response.status == 404 then
      .chatData ⟨chatId.getD "", [], now, now⟩
    else
      .thrown "Failed to load chat"
  else
    .chatData response.body

/-- A UI-side message (`Message` of the chat library, as far as the claims
inspect it). -/
structure UIMessage where
  id : String
  role : String
  content : String
deriving DecidableEq

/-- The `initialMessages` memo of chat.tsx lines 106–122: with no data, a
null `messages` field being impossible in the model, or an empty message
list, it yields `[]`; otherwise it converts the rows via
`convertToUIMessages` (code outside `src/`, hence a parameter) and re-wraps
each converted message's fields. -/
def initialMessages (convertToUIMessages : List DBMessage → List UIMessage) :
    Option ChatData → List UIMessage
  | none => []
  | some d =>
    if d.messages.isEmpty then []
    else (convertToUIMessages d.messages).map fun m => ⟨m.id, m.role, m.content⟩

/-- Observable effect of the query-error `useEffect` (chat.tsx lines 97–103). -/
structure QueryErrorEffect where
  loggedToConsole : Bool
  toastMessage : Option String
deriving DecidableEq

/-- The query-error `useEffect` of chat.tsx lines 97–103: when the query
holds an error it logs it and toasts "Failed to load chat history";
otherwise it does nothing. -/
def handleQueryError : Option String → QueryErrorEffect
  | some _ => ⟨true, some "Failed to load chat history"⟩
  | none => ⟨false, none⟩

/-- Status values of the chat hook session (chat.tsx `status`). -/
inductive ChatStatus where
  | submitted
  | streaming
  | ready
  | error
deriving DecidableEq

/-- The `isLoading` flag of chat.tsx lines 249–250:
`status === "streaming" || status === "submitted" || isLoadingChat`. -/
def isLoading (status : ChatStatus) (isLoadingChat : Bool) : Bool :=
  status == ChatStatus.streaming || status == ChatStatus.submitted || isLoadingChat

/-- The toast text chosen by the `onError` handler of `useChat`
(chat.tsx lines 217–224): the error's message when its length is positive,
else the generic fallback. -/
def onErrorToastText (message : String) : String :=
  if message.length > 0 then message
  else "An error occured, please try again later."

/-- Observable client-side events of the `onFinish` callback inside
`customFetch` and of the surrounding stream lifecycle. -/
inductive ClientEvent where
  | persistFetch
  | logSaveError
  | cleanupCall
  | toastShown (text : String)
  | abortStream
deriving DecidableEq

/-- Trace of the `streamText` `onFinish` callback in `customFetch`
(chat.tsx lines 176–193): attempt the persistence POST inside `try`; when
that fetch rejects, the `catch` logs "Failed to save messages:"; in either
case `cleanup()` is then invoked. The callback never toasts and never
aborts the already-delivered stream. -/
def onFinishTrace (persistRejects : Bool) : List ClientEvent :=
  if persistRejects then [.persistFetch, .logSaveError, .cleanupCall]
  else [.persistFetch, .cleanupCall]

/-- Outcome of the streamed response produced by `streamText` inside
`customFetch`: either the stream runs to its finish event, or the abort
signal (`options.signal`, threaded in at chat.tsx line 165) cancels it
before that. -/
inductive StreamOutcome where
  | finished
  | aborted
deriving DecidableEq

/-- Modelled from the streaming library's callback contract: `streamText`
invokes `onFinish` once, when the stream reaches its finish event; when the
abort signal fires first, the stream ends without that event and the
callback is never invoked. -/
def onFinishInvoked : StreamOutcome → Bool
  | .finished => true
  | .aborted => false

/-- Number of invocations of the `cleanup` function returned by
`initializeMCPClients` during one `customFetch` request: its only call site
is inside the `streamText` `onFinish` callback (chat.tsx line 192), so it
runs exactly as often as that callback does. -/
def customFetchCleanupCalls (outcome : StreamOutcome) (persistRejects : Bool) :
    Nat :=
  if onFinishInvoked outcome then
    (onFinishTrace persistRejects).count .cleanupCall
  else 0

/-- Body of the JSON response of the messages POST route. -/
inductive RouteBody where
  | successTrue
  | failedToSave
deriving DecidableEq

/-- Response of the messages POST route, plus whether the handler logged an
error on the way. -/
structure RouteResponse where
  status : Nat
  body : RouteBody
  errorLogged : Bool
deriving DecidableEq

/-- The POST handler of `src/app/api/chat/messages/route.ts`. The body
parse (`req.json()`), the conversion (`convertToDBMessages`) and the write
(`saveMessages`) may each throw; the latter two live in `lib/chat-store`
outside `src/`, so they enter as function parameters and the theorems hold
for every behaviour of theirs. Any throw lands in the `catch`, which logs
and answers 500 with `{ error: "Failed to save messages" }`; otherwise the
handler answers 200 with `{ success: true }`. -/
def routePOST (parsedBody : Except String (List UIMessage × String))
    (convertToDBMessages : List UIMessage → String → Except String (List DBMessage))
    (saveMessages : List DBMessage → Except String Unit) : RouteResponse :=
  match parsedBody with
  | .error _ => ⟨500, .failedToSave, true⟩
  | .ok (messages, chatId) =>
    match convertToDBMessages messages chatId with
    | .error _ => ⟨500, .failedToSave, true⟩
    | .ok dbMessages =>
      match saveMessages dbMessages with
      | .error _ => ⟨500, .failedToSave, true⟩
      | .ok _ => ⟨200, .successTrue, false⟩

/-- Actions performed by the custom submit handler, in order. -/
inductive SubmitAction where
  | preventDefault
  | submitForm
  | navigate (route : String)
deriving DecidableEq

/-- The `handleFormSubmit` callback of chat.tsx lines 228–247: it always
prevents the default form action and calls `handleSubmit`; when there is no
route chatId, the generated id is truthy and the trimmed input is truthy,
it additionally pushes the durable route `/chat/<generatedChatId>` after
submitting. -/
def handleFormSubmit (chatId : Option String) (generatedChatId input : String) :
    List SubmitAction :=
  if !truthyOpt chatId && truthy generatedChatId && truthy (jsTrim input) then
    [.preventDefault, .submitForm, .navigate ("/chat/" ++ generatedChatId)]
  else
    [.preventDefault, .submitForm]

/-- The conversation id used both as the `useChat` session id and in every
request body (chat.tsx lines 201 and 207): `chatId || generatedChatId`. -/
def requestChatId (chatId : Option String) (generatedChatId : String) : String :=
  match chatId with
  | some c => if truthy c then c else generatedChatId
  | none => generatedChatId

/-- One reply of the model within the tool-use loop: either terminal text,
or a batch of tool-invocation requests. -/
inductive ModelReply where
  | terminal (text : String)
  | toolRequests (calls : List String)

/-- Outcome of the tool-use loop: a terminal response, or graceful
truncation at the step ceiling surfacing the content so far. -/
inductive LoopOutcome where
  | completedRun (text : String)
  | truncatedRun
deriving DecidableEq

/-- The `maxSteps` ceiling the source passes to `streamText`
(chat.tsx line 167) and to `useChat` (chat.tsx line 203). -/
def maxSteps : Nat := 20

/-- Modelled from the spec: the multi-step tool-use loop of the
CompletionEngine (`streamText`), whose implementation lives in the `ai`
library rather than under `src/`. Each step the model either produces final
text, ending the loop, or requests tools, whose results are appended to
history and the loop continues; exhausting the step budget ends the loop
gracefully with the partial content, not an error. `stepsDone` counts the
steps taken so far and `fuel` is the remaining budget; the result pairs the
total number of steps with the outcome. -/
def toolUseLoop (model : Nat → ModelReply) : Nat → Nat → Nat × LoopOutcome
  | stepsDone, 0 => (stepsDone, .truncatedRun)
  | stepsDone, fuel + 1 =>
    match model stepsDone with
    | .terminal text => (stepsDone + 1, .completedRun text)
    | .toolRequests _ => toolUseLoop model (stepsDone + 1) fuel

/-- Run the tool-use loop with the source's `maxSteps` budget. -/
def runCompletion (model : Nat → ModelReply) : Nat × LoopOutcome :=
  toolUseLoop model 0 maxSteps

theorem toolUseLoop_steps_le (model : Nat → ModelReply) :
    ∀ (fuel stepsDone : Nat),
      (toolUseLoop model stepsDone fuel).1 ≤ stepsDone + fuel := by
  intro fuel
  induction fuel with
  | zero => intro stepsDone; simp [toolUseLoop]
  | succ n ih =>
    intro stepsDone
    unfold toolUseLoop
    cases model stepsDone with
    | terminal text => simp
    | toolRequests calls =>
      simp only []
      have h := ih (stepsDone + 1)
      omega

theorem toolUseLoop_no_terminal (model : Nat → ModelReply)
    (h : ∀ n text, model n ≠ .terminal text) :
    ∀ (fuel stepsDone : Nat),
      toolUseLoop model stepsDone fuel = (stepsDone + fuel, .truncatedRun) := by
  intro fuel
  induction fuel with
  | zero => intro stepsDone; simp [toolUseLoop]
  | succ n ih =>
    intro stepsDone
    unfold toolUseLoop
    cases hm : model stepsDone with
    | terminal text => exact absurd hm (h stepsDone text)
    | toolRequests calls =>
      simp only []
      rw [ih (stepsDone + 1)]
      have hs : stepsDone + 1 + n = stepsDone + (n + 1) := by omega
      rw [hs]

/-- C1: the claim that the cleanup function returned by
`initializeMCPClients` runs exactly once per `customFetch` request on every
exit path fails on the code: `cleanup()` has a single call site, inside the
`streamText` `onFinish` callback, which the library never invokes when the
abort signal cancels the stream — an aborted request performs zero cleanup
calls and leaks its tool connections, while a finished request performs
exactly one (whether or not the persistence fetch rejects). -/
theorem cleanup_skipped_on_abort :
    ∀ persistRejects : Bool,
      customFetchCleanupCalls .aborted persistRejects = 0 ∧
      customFetchCleanupCalls .finished persistRejects = 1 := by
  decide

/-- C2: for every model behaviour, the tool-use loop run with the source's
`maxSteps = 20` budget takes at most 20 steps; and when the model never
emits a terminal reply, it takes exactly 20 steps and ends in graceful
truncation, surfacing the partial content rather than an error. -/
theorem tool_use_loop_bounded (model : Nat → ModelReply) :
    (runCompletion model).1 ≤ maxSteps ∧
    ((∀ n text, model n ≠ .terminal text) →
      runCompletion model = (maxSteps, .truncatedRun)) := by
  constructor
  · have h := toolUseLoop_steps_le model maxSteps 0
    simpa [runCompletion] using h
  · intro h
    have := toolUseLoop_no_terminal model h maxSteps 0
    simpa [runCompletion] using this

/-- Witness for C2 at the model that always requests tools. -/
theorem tool_use_loop_bounded_witness :
    (runCompletion (fun _ => .toolRequests [])).1 ≤ maxSteps ∧
    runCompletion (fun _ => .toolRequests []) = (maxSteps, .truncatedRun) := by
  have h := tool_use_loop_bounded (fun _ => .toolRequests [])
  exact ⟨h.1, h.2 (fun n text hc => by exact absurd hc (by simp))⟩

/-- C3: whenever the history fetch (performed only with truthy chatId and
userId) answers with status 404, the query function resolves — it does not
throw — with the synthetic empty-history payload
`{ id: chatId, messages: [], createdAt, updatedAt }`. -/
theorem queryFn_404_synthetic_empty (cid uid now : String)
    (resp : HttpResponse) (hcid : cid ≠ "") (huid : uid ≠ "")
    (h404 : resp.status = 404) :
    queryFn (some cid) (some uid) now resp = .chatData ⟨cid, [], now, now⟩ := by
  simp [queryFn, truthyOpt, truthy, hcid, huid, HttpResponse.ok, h404]

/-- Witness for C3 at a concrete 404 response. -/
theorem queryFn_404_synthetic_empty_witness :
    queryFn (some "c1") (some "u1") "2026-10-11" ⟨404, ⟨"", [], "", ""⟩⟩ =
      .chatData ⟨"c1", [], "2026-10-11", "2026-10-11"⟩ :=
  queryFn_404_synthetic_empty "c1" "u1" "2026-10-11" ⟨404, ⟨"", [], "", ""⟩⟩
    (by decide) (by decide) rfl

/-- C7: for every stream error event, the toast text equals the error's
message when that message is non-empty, and equals the generic fallback
"An error occured, please try again later." when the message is empty. -/
theorem stream_error_toast_text (message : String) :
    onErrorToastText message =
      if message = "" then "An error occured, please try again later."
      else message := by
  rcases message with ⟨data⟩
  cases data with
  | nil => simp [onErrorToastText, String.length]
  | cons c cs =>
    simp [onErrorToastText, String.length, String.ext_iff]

/-- C8: the `isLoading` flag is true exactly when the chat status is
`submitted` or `streaming`, or the history fetch is still in flight, and
false in every other state. -/
theorem isLoading_characterization (status : ChatStatus)
    (isLoadingChat : Bool) :
    isLoading status isLoadingChat = true ↔
      (status = .submitted ∨ status = .streaming ∨ isLoadingChat = true) := by
  cases status <;> cases isLoadingChat <;> simp [isLoading]

/-- C4: whenever the history fetch answers non-ok with a status other than
404, the query function throws `Error("Failed to load chat")`; the error
effect logs it and surfaces the "Failed to load chat history" toast; and
with no query data the initial message list falls back to `[]` for every
behaviour of the converter, keeping the UI usable. -/
theorem queryFn_other_error_surfaced (cid uid now : String)
    (resp : HttpResponse) (hcid : cid ≠ "") (huid : uid ≠ "")
    (hok : resp.ok = false) (h404 : resp.status ≠ 404) :
    queryFn (some cid) (some uid) now resp = .thrown "Failed to load chat" ∧
    handleQueryError (some "Failed to load chat") =
      ⟨true, some "Failed to load chat history"⟩ ∧
    (∀ convert, initialMessages convert none = []) := by
  refine ⟨?_, rfl, fun _ => rfl⟩
  simp [queryFn, truthyOpt, truthy, hcid, huid, hok, h404]

/-- Witness for C4 at a concrete 500 response. -/
theorem queryFn_other_error_surfaced_witness :
    queryFn (some "c1") (some "u1") "2026-10-11" ⟨500, ⟨"", [], "", ""⟩⟩ =
      .thrown "Failed to load chat" ∧
    handleQueryError (some "Failed to load chat") =
      ⟨true, some "Failed to load chat history"⟩ ∧
    (∀ convert, initialMessages convert none = []) :=
  queryFn_other_error_surfaced "c1" "u1" "2026-10-11" ⟨500, ⟨"", [], "", ""⟩⟩
    (by decide) (by decide) (by decide) (by decide)

/-- C5: when the persistence write fails — here, `saveMessages` throwing
after a successful parse and conversion — the server handler logs and
answers 500 with the failure body, and the client `onFinish` callback logs
a rejected persistence fetch, shows no toast (no second user-visible
error), never aborts the delivered stream, and still runs cleanup once. -/
theorem persistence_failure_contained (messages : List UIMessage)
    (chatId : String)
    (convert : List UIMessage → String → Except String (List DBMessage))
    (save : List DBMessage → Except String Unit)
    (dbMessages : List DBMessage) (e : String)
    (hconv : convert messages chatId = .ok dbMessages)
    (hsave : save dbMessages = .error e) :
    routePOST (.ok (messages, chatId)) convert save =
      ⟨500, .failedToSave, true⟩ ∧
    (onFinishTrace true).count .logSaveError = 1 ∧
    (onFinishTrace true).count .cleanupCall = 1 ∧
    (∀ text, ClientEvent.toastShown text ∉ onFinishTrace true) ∧
    ClientEvent.abortStream ∉ onFinishTrace true := by
  refine ⟨?_, by decide, by decide, fun text => ?_, by decide⟩
  · simp [routePOST, hconv, hsave]
  · simp [onFinishTrace]

/-- Witness for C5 at a concrete failing save. -/
theorem persistence_failure_contained_witness :
    routePOST (.ok ([], "c1")) (fun _ _ => .ok []) (fun _ => .error "down") =
      ⟨500, .failedToSave, true⟩ ∧
    (onFinishTrace true).count .logSaveError = 1 ∧
    (onFinishTrace true).count .cleanupCall = 1 ∧
    (∀ text, ClientEvent.toastShown text ∉ onFinishTrace true) ∧
    ClientEvent.abortStream ∉ onFinishTrace true :=
  persistence_failure_contained [] "c1" (fun _ _ => .ok [])
    (fun _ => .error "down") [] "down" rfl rfl

/-- C6: on first submit of a brand-new (unrouted) conversation with
non-empty trimmed input, the handler submits exactly once and then
navigates to `/chat/<generatedChatId>`; the id carried by the request is
the generated id, and after the navigation (route id now the generated id)
the session id expression still yields that same id, so no new request or
session identity change is forced. -/
theorem first_submit_navigates_preserving_id (generatedChatId input : String)
    (hgen : generatedChatId ≠ "") (hinput : jsTrim input ≠ "") :
    handleFormSubmit none generatedChatId input =
      [.preventDefault, .submitForm,
        .navigate ("/chat/" ++ generatedChatId)] ∧
    requestChatId none generatedChatId = generatedChatId ∧
    (handleFormSubmit none generatedChatId input).count .submitForm = 1 ∧
    requestChatId (some generatedChatId) generatedChatId = generatedChatId := by
  have hbranch : handleFormSubmit none generatedChatId input =
      [.preventDefault, .submitForm,
        .navigate ("/chat/" ++ generatedChatId)] := by
    simp [handleFormSubmit, truthyOpt, truthy, hgen, hinput]
  refine ⟨hbranch, rfl, ?_, ?_⟩
  · rw [hbranch]
    simp [List.count_cons]
  · simp [requestChatId]

/-- Witness for C6 at concrete generated id and input. -/
theorem first_submit_navigates_preserving_id_witness :
    handleFormSubmit none "abc" "hi" =
      [.preventDefault, .submitForm, .navigate ("/chat/" ++ "abc")] ∧
    requestChatId none "abc" = "abc" ∧
    (handleFormSubmit none "abc" "hi").count .submitForm = 1 ∧
    requestChatId (some "abc") "abc" = "abc" :=
  first_submit_navigates_preserving_id "abc" "hi" (by decide) (by decide)

/-- C9: the messages POST handler is total by construction (it always
yields a response value) and answers 200 with `{ success: true }` exactly
when parse, conversion and save all succeed, answering 500 with
`{ error: "Failed to save messages" }` and a logged error in every other
case. -/
theorem routePOST_total (parsedBody : Except String (List UIMessage × String))
    (convert : List UIMessage → String → Except String (List DBMessage))
    (save : List DBMessage → Except String Unit) :
    (routePOST parsedBody convert save = ⟨200, .successTrue, false⟩ ∨
      routePOST parsedBody convert save = ⟨500, .failedToSave, true⟩) ∧
    (routePOST parsedBody convert save = ⟨200, .successTrue, false⟩ ↔
      ∃ messages chatId dbMessages,
        parsedBody = .ok (messages, chatId) ∧
        convert messages chatId = .ok dbMessages ∧
        save dbMessages = .ok ()) := by
  rcases parsedBody with e | ⟨ms, cid⟩
  · refine ⟨Or.inr rfl, ?_, ?_⟩
    · intro h
      simp [routePOST] at h
    · rintro ⟨m, c, d, hp, -, -⟩
      exact Except.noConfusion hp
  · cases hc : convert ms cid with
    | error err =>
      refine ⟨Or.inr (by simp [routePOST, hc]), ?_, ?_⟩
      · intro h
        simp [routePOST, hc] at h
      · rintro ⟨m, c, d, hp, hcc, -⟩
        obtain ⟨rfl, rfl⟩ : ms = m ∧ cid = c := by
          injection hp with h1
          exact ⟨congrArg Prod.fst h1, congrArg Prod.snd h1⟩
        rw [hc] at hcc
        exact Except.noConfusion hcc
    | ok dbs =>
      cases hs : save dbs with
      | error err =>
        refine ⟨Or.inr (by simp [routePOST, hc, hs]), ?_, ?_⟩
        · intro h
          simp [routePOST, hc, hs] at h
        · rintro ⟨m, c, d, hp, hcc, hss⟩
          obtain ⟨rfl, rfl⟩ : ms = m ∧ cid = c := by
            injection hp with h1
            exact ⟨congrArg Prod.fst h1, congrArg Prod.snd h1⟩
          rw [hc] at hcc
          injection hcc with h2
          subst h2
          rw [hs] at hss
          exact Except.noConfusion hss
      | ok u =>
        refine ⟨Or.inl (by simp [routePOST, hc, hs]), ?_, ?_⟩
        · intro h
          exact ⟨ms, cid, dbs, rfl, hc, by cases u; exact hs⟩
        · intro h
          simp [routePOST, hc, hs]

/-- C10: submitting in a brand-new (unrouted) conversation with
whitespace-only input still invokes `handleSubmit` through the fallback
branch, but performs no navigation, so the session stays on the
non-durable route. -/
theorem empty_input_submit_no_navigation (generatedChatId input : String)
    (hinput : jsTrim input = "") :
    handleFormSubmit none generatedChatId input =
      [.preventDefault, .submitForm] ∧
    (∀ route, SubmitAction.navigate route ∉
      handleFormSubmit none generatedChatId input) := by
  have hbranch : handleFormSubmit none generatedChatId input =
      [.preventDefault, .submitForm] := by
    simp [handleFormSubmit, truthyOpt, truthy, hinput]
  refine ⟨hbranch, fun route => ?_⟩
  rw [hbranch]
  simp

/-- Witness for C10 at whitespace-only input. -/
theorem empty_input_submit_no_navigation_witness :
    handleFormSubmit none "abc" "  " = [.preventDefault, .submitForm] ∧
    (∀ route, SubmitAction.navigate route ∉ handleFormSubmit none "abc" "  ") :=
  empty_input_submit_no_navigation "abc" "  " (by decide)

end SciraChat
